import Mathlib

/-!
Verification of the Smart Fitness desktop application's record-store logic.

The application's screens (users, workouts, goals, nutrition, reports) are
embedded shallowly: each JSON file becomes a Lean list (or an `Option` for
the single goal object), and each submit handler becomes a pure function
from the form's string inputs and the current file contents to the new file
contents together with the dialog outcome.  Numeric fields are `Int`
(Python's `int(...)` is modelled by `pyInt?` and `str.lower()` by `pyLower`, both kernel-computable), and the float
division in the progress computation is modelled exactly over `ℚ`.
-/

/-- A workout record as written by `WorkoutScreen.log_workout` into
`data/workouts.json`: date string (`YYYY-MM-DD`), exercise type, duration
(minutes), calories and free-text notes. -/
structure Workout where
  date : String
  type : String
  duration : Int
  calories : Int
  notes : String
deriving DecidableEq

/-- A meal record as written by `NutritionScreen.log_meal` into
`data/meals.json`. -/
structure Meal where
  date : String
  type : String
  calories : Int
  protein : Int
  carbs : Int
  fats : Int
deriving DecidableEq

/-- A user record as written by `UserScreen.save_user` into
`data/users.json`. -/
structure User where
  name : String
  age : Int
  goal : String
deriving DecidableEq

/-- Outcome of a submit handler: either the success path (`ok`) or a
blocking dialog (`messagebox.showerror` / `showwarning` / `showinfo`)
carrying the dialog's message, after which the handler returns without
writing. -/
inductive SubmitResult where
  | ok : SubmitResult
  | err : String → SubmitResult
deriving DecidableEq

/-- `sum(w.get("calories", 0) for w in workouts)` in
`GoalScreen.update_progress`. -/
def total_burned (ws : List Workout) : Int :=
  (ws.map Workout.calories).sum

/-- `GoalScreen.update_progress`: the progress value put on the progress
bar.  The goal is read as `goal_data.get("calorie_goal", 0)` (`none`
models an absent key) and
`progress = min(100, (total_burned / goal) * 100 if goal else 0)`. -/
def update_progress (goalData : Option Int) (ws : List Workout) : ℚ :=
  let goal : Int := goalData.getD 0
  min 100 (if goal = 0 then 0 else (total_burned ws : ℚ) / (goal : ℚ) * 100)

/-- C1: with a positive goal `g` the displayed progress is
`min(100, total_calories / g * 100)` where the total sums the `calories`
field over the whole workout list; a zero or absent goal yields `0`
(no division); goal `200` with `250` burned caps at exactly `100`;
and the total ignores dates entirely (rewriting every record's date
leaves the progress unchanged). -/
theorem C1_goal_progress (g : Int) (ws : List Workout) (hg : 0 < g) :
    update_progress (some g) ws = min 100 ((total_burned ws : ℚ) / (g : ℚ) * 100)
  ∧ update_progress (some 0) ws = 0
  ∧ update_progress none ws = 0
  ∧ update_progress (some 200) [⟨"2026-01-01", "Running", 30, 250, ""⟩] = 100
  ∧ ∀ d : String, update_progress (some g) (ws.map fun w => { w with date := d })
      = update_progress (some g) ws := by
  refine ⟨?_, ?_, ?_, ?_, ?_⟩
  · simp [update_progress, hg.ne']
  · simp [update_progress]
  · simp [update_progress]
  · norm_num [update_progress, total_burned]
  · intro d
    have htotal : total_burned (ws.map fun w => { w with date := d }) = total_burned ws := by
      simp [total_burned, List.map_map]
      rfl
    simp [update_progress, htotal]

/-- Evaluation of `C1_goal_progress` at goal `200` and a single workout
burning `250` calories: the displayed progress is exactly `100`. -/
theorem C1_goal_progress_witness :
    update_progress (some 200) [⟨"2026-01-01", "Running", 30, 250, ""⟩] = 100 :=
  (C1_goal_progress 200 [⟨"2026-01-01", "Running", 30, 250, ""⟩] (by norm_num)).2.2.2.1

/-- The state `GoalScreen` can touch: the `calorie_goal` value in
`data/goals.json` (`none` when the key is absent), the workout list in
`data/workouts.json`, and the text of the goal entry widget. -/
structure GoalScreenState where
  calorie_goal : Option Int
  workouts : List Workout
  goalEntry : String
deriving DecidableEq

/-- `GoalScreen.reset_progress_and_goal`: dumps `[]` into
`data/workouts.json` and clears the goal entry widget; it never opens
`data/goals.json`. -/
def reset_progress_and_goal (st : GoalScreenState) : GoalScreenState :=
  { calorie_goal := st.calorie_goal, workouts := [], goalEntry := "" }

/-- C6: the reset operation empties the persisted workout list and clears
the goal input field, but the persisted `calorie_goal` value is exactly
what it was before. -/
theorem C6_reset_frame (st : GoalScreenState) :
    (reset_progress_and_goal st).workouts = []
  ∧ (reset_progress_and_goal st).goalEntry = ""
  ∧ (reset_progress_and_goal st).calorie_goal = st.calorie_goal :=
  ⟨rfl, rfl, rfl⟩

/-- The seven day strings of `GoalScreen.show_report` and
`ReportScreen.show_fitness_chart`:
`[(today - timedelta(days=i)).strftime("%Y-%m-%d") for i in range(6, -1, -1)]`.
Days are modelled as integers and `strftime` as an abstract formatting
function `fmt`. -/
def weekDays (fmt : Int → String) (today : Int) : List String :=
  [6, 5, 4, 3, 2, 1, 0].map fun i => fmt (today - i)

/-- One iteration of the bucketing loop
`if date in daily_summary: daily_summary[date] += w.get("calories", 0)`,
on the dictionary modelled as an association list. -/
def updateSummary (m : List (String × Int)) (w : Workout) : List (String × Int) :=
  if m.any fun p => p.1 == w.date then
    m.map fun p => if p.1 == w.date then (p.1, p.2 + w.calories) else p
  else m

/-- `GoalScreen.show_report`: the `daily_summary` dictionary built by
zero-filling the last seven days and folding the bucketing loop over the
workout list. -/
def show_report (fmt : Int → String) (today : Int) (ws : List Workout) :
    List (String × Int) :=
  ws.foldl updateSummary ((weekDays fmt today).map fun d => (d, 0))

/-- `ReportScreen.show_fitness_chart`: the `calories_by_day` dictionary;
the bucketing is identical to `GoalScreen.show_report`. -/
def show_fitness_chart (fmt : Int → String) (today : Int) (ws : List Workout) :
    List (String × Int) :=
  ws.foldl updateSummary ((weekDays fmt today).map fun d => (d, 0))

/-- Total calories of the records whose date string equals `d` exactly. -/
def caloriesOn (d : String) (ws : List Workout) : Int :=
  ((ws.filter fun w => w.date == d).map Workout.calories).sum

lemma updateSummary_map (days : List String) (g : String → Int) (w : Workout) :
    updateSummary (days.map fun d => (d, g d)) w
      = days.map fun d => (d, if d = w.date then g d + w.calories else g d) := by
  unfold updateSummary
  by_cases hmem : w.date ∈ days
  · rw [if_pos, List.map_map]
    · congr 1
      funext d
      by_cases hd : d = w.date <;> simp [hd]
    · exact List.any_eq_true.mpr ⟨(w.date, g w.date), List.mem_map_of_mem _ hmem, by simp⟩
  · rw [if_neg, List.map_congr_left]
    intro d hd
    have : ¬ d = w.date := fun h => hmem (h ▸ hd)
    · simp [this]
    · intro hany
      rcases List.any_eq_true.mp hany with ⟨p, hp, hpe⟩
      rcases List.mem_map.mp hp with ⟨d, hd, rfl⟩
      exact hmem ((by simpa using hpe) ▸ hd)

lemma caloriesOn_cons (d : String) (w : Workout) (ws : List Workout) :
    caloriesOn d (w :: ws)
      = (if w.date = d then w.calories else 0) + caloriesOn d ws := by
  by_cases h : w.date = d <;> simp [caloriesOn, List.filter_cons, h]

lemma foldl_updateSummary (ws : List Workout) :
    ∀ (days : List String) (g : String → Int),
    ws.foldl updateSummary (days.map fun d => (d, g d))
      = days.map fun d => (d, g d + caloriesOn d ws) := by
  induction ws with
  | nil =>
    intro days g
    simp [caloriesOn]
  | cons w ws ih =>
    intro days g
    rw [List.foldl_cons, updateSummary_map,
      ih days fun d => if d = w.date then g d + w.calories else g d]
    congr 1
    funext d
    rw [caloriesOn_cons]
    by_cases hd : d = w.date
    · simp [hd, add_assoc]
    · have hd' : ¬ w.date = d := fun h => hd h.symm
      simp [hd, hd']

lemma updateSummary_not_mem (days : List String) (g : String → Int) (w : Workout)
    (hw : w.date ∉ days) :
    updateSummary (days.map fun d => (d, g d)) w = days.map fun d => (d, g d) := by
  rw [updateSummary_map, List.map_congr_left]
  intro d hd
  have hne : ¬ d = w.date := fun h => hw (h ▸ hd)
  simp [hne]

/-- C2: the weekly summary of `GoalScreen.show_report` and the chart data
of `ReportScreen.show_fitness_chart` bucket exactly the seven days
`D-6 … D`; each bucket holds the calorie sum of the records whose date
string equals that day exactly; a day with no matching record holds `0`;
a record dated eight days before `D` changes no bucket; and a record
dated `D` adds its calories to `D`'s bucket. -/
theorem C2_weekly_buckets (fmt : Int → String) (today : Int) (ws : List Workout)
    (w8 wt : Workout)
    (h8 : w8.date = fmt (today - 8))
    (hout : fmt (today - 8) ∉ weekDays fmt today)
    (ht : wt.date = fmt today) :
    show_report fmt today ws = (weekDays fmt today).map (fun d => (d, caloriesOn d ws))
  ∧ show_fitness_chart fmt today ws
      = (weekDays fmt today).map (fun d => (d, caloriesOn d ws))
  ∧ (∀ d, ws.filter (fun w => w.date == d) = [] → caloriesOn d ws = 0)
  ∧ show_report fmt today (w8 :: ws) = show_report fmt today ws
  ∧ caloriesOn (fmt today) (wt :: ws) = wt.calories + caloriesOn (fmt today) ws := by
  have hmain : ∀ vs : List Workout,
      vs.foldl updateSummary ((weekDays fmt today).map fun d => (d, 0))
        = (weekDays fmt today).map fun d => (d, caloriesOn d vs) := by
    intro vs
    simpa using foldl_updateSummary vs (weekDays fmt today) fun _ => 0
  refine ⟨hmain ws, hmain ws, ?_, ?_, ?_⟩
  · intro d hfil
    simp [caloriesOn, hfil]
  · unfold show_report
    rw [List.foldl_cons]
    congr 1
    exact updateSummary_not_mem (weekDays fmt today) (fun _ => 0) w8
      (by rw [h8]; exact hout)
  · rw [caloriesOn_cons, if_pos ht]

/-- Evaluation of `C2_weekly_buckets` with days rendered by `toString` and
today = day `0`: a single record dated day `-8` produces the same weekly
summary as no records at all. -/
theorem C2_weekly_buckets_witness :
    show_report (fun i : Int => toString i) 0
        [⟨toString (-8 : Int), "Walk", 30, 200, ""⟩]
      = show_report (fun i : Int => toString i) 0 [] := by
  have h := C2_weekly_buckets (fun i : Int => toString i) 0 []
      ⟨toString (-8 : Int), "Walk", 30, 200, ""⟩
      ⟨toString (0 : Int), "Walk", 30, 200, ""⟩
      (by decide) (by decide) (by decide)
  exact h.2.2.2.1

/-- Tip text for `protein < 10` in `NutritionScreen.show_tip`. -/
def tipLowProtein : String :=
  "Add more protein (e.g. eggs, chicken, tofu) to support muscle repair."

/-- Tip text for `carbs > 100` in `NutritionScreen.show_tip`. -/
def tipHighCarb : String :=
  "High carb alert! Consider cutting down on sugar-heavy or starchy meals."

/-- Tip text for `fats > 40` in `NutritionScreen.show_tip`. -/
def tipHighFat : String :=
  "Fat intake is high. Try more lean meals or salads."

/-- Tip text for `calories > 700` in `NutritionScreen.show_tip`. -/
def tipHeavyMeal : String :=
  "That was a heavy meal! Balance with lighter meals today."

/-- Default message when no rule triggers in `NutritionScreen.show_tip`. -/
def tipBalanced : String :=
  "Balanced intake! Keep up the good work!"

/-- The `tips` list built by `NutritionScreen.show_tip` from the latest
meal: the four threshold rules are applied in the source's fixed order and
the default message is substituted when none triggered. -/
def mealTips (latest : Meal) : List String :=
  let tips : List String := []
  let tips := if latest.protein < 10 then tips ++ [tipLowProtein] else tips
  let tips := if latest.carbs > 100 then tips ++ [tipHighCarb] else tips
  let tips := if latest.fats > 40 then tips ++ [tipHighFat] else tips
  let tips := if latest.calories > 700 then tips ++ [tipHeavyMeal] else tips
  if tips = [] then [tipBalanced] else tips

/-- What `NutritionScreen.show_tip` displays: either the informational
prompt `"Log some meals to get personalized tips."` (when the store is
empty) or the joined tip text. -/
inductive TipResult where
  | prompt : TipResult
  | tip : String → TipResult
deriving DecidableEq

/-- `NutritionScreen.show_tip` as a function of the raw contents of
`data/meals.json`: `none` models an unreadable or unparsable file (the
bare `except` sets `data = []`), `some data` a parsed list.  An empty
list yields the prompt; otherwise the rules run on `data[-1]` and the
triggered tips are joined with `"\n\n"`. -/
def show_tip (raw : Option (List Meal)) : TipResult :=
  let data := raw.getD []
  match data.getLast? with
  | none => TipResult.prompt
  | some latest => TipResult.tip (String.intercalate "\n\n" (mealTips latest))

/-- `NutritionScreen.show_tip` paired with the meal file it leaves behind:
the handler only ever opens `data/meals.json` for reading, so the file
contents pass through unchanged. -/
def show_tip_op (raw : Option (List Meal)) : Option (List Meal) × TipResult :=
  (raw, show_tip raw)

/-- The shape of the rule block in `NutritionScreen.show_tip`, abstracted
over the four rule conditions and the five message strings. -/
def ruleTips (p q r s : Prop) [Decidable p] [Decidable q] [Decidable r] [Decidable s]
    (a b c d e : String) : List String :=
  let tips : List String := []
  let tips := if p then tips ++ [a] else tips
  let tips := if q then tips ++ [b] else tips
  let tips := if r then tips ++ [c] else tips
  let tips := if s then tips ++ [d] else tips
  if tips = [] then [e] else tips

lemma mealTips_eq_ruleTips (m : Meal) :
    mealTips m = ruleTips (m.protein < 10) (m.carbs > 100) (m.fats > 40)
      (m.calories > 700) tipLowProtein tipHighCarb tipHighFat tipHeavyMeal tipBalanced :=
  rfl

lemma ruleTips_spec (p q r s : Prop) [Decidable p] [Decidable q] [Decidable r] [Decidable s]
    (a b c d e : String)
    (hab : a ≠ b) (hac : a ≠ c) (had : a ≠ d) (hae : a ≠ e)
    (hbc : b ≠ c) (hbd : b ≠ d) (hbe : b ≠ e)
    (hcd : c ≠ d) (hce : c ≠ e) (hde : d ≠ e) :
    (a ∈ ruleTips p q r s a b c d e ↔ p)
  ∧ (b ∈ ruleTips p q r s a b c d e ↔ q)
  ∧ (c ∈ ruleTips p q r s a b c d e ↔ r)
  ∧ (d ∈ ruleTips p q r s a b c d e ↔ s)
  ∧ (ruleTips p q r s a b c d e = [e] ↔ ¬ (p ∨ q ∨ r ∨ s)) := by
  have hba := hab.symm
  have hca := hac.symm
  have hda := had.symm
  have hea := hae.symm
  have hcb := hbc.symm
  have hdb := hbd.symm
  have heb := hbe.symm
  have hdc := hcd.symm
  have hec := hce.symm
  have hed := hde.symm
  unfold ruleTips
  split_ifs <;> simp_all

set_option maxHeartbeats 1000000 in
lemma mealTips_order (m : Meal) :
    (mealTips m).Sublist [tipLowProtein, tipHighCarb, tipHighFat, tipHeavyMeal]
  ∨ mealTips m = [tipBalanced] := by
  unfold mealTips
  split_ifs <;> decide

/-- C3: the tip is computed from the single most-recent meal only; each
threshold tip appears iff its rule fires (`protein < 10`, `carbs > 100`,
`fats > 40`, `calories > 700`); when no rule fires the output is exactly
the balanced-diet message; the triggered tips appear concatenated in the
source's fixed order; and the meal `{protein 5, carbs 50, fats 10,
calories 300}` yields exactly the low-protein tip. -/
theorem C3_nutrition_tip (m : Meal) (ms : List Meal) :
    (tipLowProtein ∈ mealTips m ↔ m.protein < 10)
  ∧ (tipHighCarb ∈ mealTips m ↔ m.carbs > 100)
  ∧ (tipHighFat ∈ mealTips m ↔ m.fats > 40)
  ∧ (tipHeavyMeal ∈ mealTips m ↔ m.calories > 700)
  ∧ (mealTips m = [tipBalanced]
      ↔ ¬ (m.protein < 10 ∨ m.carbs > 100 ∨ m.fats > 40 ∨ m.calories > 700))
  ∧ ((mealTips m).Sublist [tipLowProtein, tipHighCarb, tipHighFat, tipHeavyMeal]
      ∨ mealTips m = [tipBalanced])
  ∧ show_tip (some (ms ++ [m]))
      = TipResult.tip (String.intercalate "\n\n" (mealTips m))
  ∧ mealTips ⟨"2026-01-01", "Lunch", 300, 5, 50, 10⟩ = [tipLowProtein] := by
  have hLast : show_tip (some (ms ++ [m]))
      = TipResult.tip (String.intercalate "\n\n" (mealTips m)) := by
    simp [show_tip]
  have hspec := ruleTips_spec (m.protein < 10) (m.carbs > 100) (m.fats > 40)
      (m.calories > 700) tipLowProtein tipHighCarb tipHighFat tipHeavyMeal tipBalanced
      (by decide) (by decide) (by decide) (by decide) (by decide)
      (by decide) (by decide) (by decide) (by decide) (by decide)
  rw [← mealTips_eq_ruleTips] at hspec
  exact ⟨hspec.1, hspec.2.1, hspec.2.2.1, hspec.2.2.2.1, hspec.2.2.2.2,
    mealTips_order m, hLast, by decide⟩

/-- Evaluation of `C3_nutrition_tip` at the meal
`{protein 5, carbs 50, fats 10, calories 300}` appended to an empty
history: the displayed tip is exactly the low-protein message. -/
theorem C3_nutrition_tip_witness :
    show_tip (some ([] ++ [(⟨"2026-01-01", "Lunch", 300, 5, 50, 10⟩ : Meal)]))
      = TipResult.tip tipLowProtein := by
  have h := C3_nutrition_tip ⟨"2026-01-01", "Lunch", 300, 5, 50, 10⟩ []
  rw [h.2.2.2.2.2.2.1, h.2.2.2.2.2.2.2]
  decide

/-- C10: requesting a tip with an empty meal store — or with a meal file
that cannot be read or parsed, which the bare `except` turns into the
empty list — yields the informational prompt, leaves the meal file
exactly as it was, and only runs the threshold rules when at least one
record exists. -/
theorem C10_tip_empty (raw : Option (List Meal)) :
    (show_tip_op raw).1 = raw
  ∧ show_tip none = TipResult.prompt
  ∧ show_tip (some []) = TipResult.prompt
  ∧ (show_tip raw = TipResult.prompt ↔ raw.getD [] = [])
  ∧ ∀ ms m, raw = some (ms ++ [m])
      → show_tip raw = TipResult.tip (String.intercalate "\n\n" (mealTips m)) := by
  refine ⟨rfl, rfl, rfl, ?_, ?_⟩
  · rcases raw with _ | data
    · simp [show_tip]
    · rcases data.eq_nil_or_concat with h | ⟨ms, m, rfl⟩
      · subst h
        simp [show_tip]
      · simp [show_tip]
  · rintro ms m rfl
    simp [show_tip]

/-- Evaluation of `C10_tip_empty` at a one-meal store: the rules run on
that meal and a joined tip, not the prompt, is displayed. -/
theorem C10_tip_empty_witness :
    show_tip (some [(⟨"2026-01-02", "Dinner", 800, 20, 120, 50⟩ : Meal)])
      = TipResult.tip (String.intercalate "\n\n"
          (mealTips ⟨"2026-01-02", "Dinner", 800, 20, 120, 50⟩)) :=
  (C10_tip_empty (some [⟨"2026-01-02", "Dinner", 800, 20, 120, 50⟩])).2.2.2.2
    [] ⟨"2026-01-02", "Dinner", 800, 20, 120, 50⟩ rfl

/-- One accumulation step of decimal-digit parsing. -/
def parseDigits (cs : List Char) : Option Nat :=
  if cs.isEmpty then none
  else
    cs.foldl
      (fun acc c =>
        acc.bind fun n => if c.isDigit then some (n * 10 + (c.toNat - 48)) else none)
      (some 0)

/-- Model of Python `int(...)` on a form-entry string: an optional leading
minus sign followed by one or more decimal digits; everything else raises
`ValueError`, modelled as `none`.  (Python also tolerates surrounding
whitespace, a plus sign and underscore separators; those fringes are not
exercised anywhere in this application's flows.) -/
def pyInt? (s : String) : Option Int :=
  match s.data with
  | [] => none
  | '-' :: cs => (parseDigits cs).map fun n => -(n : Int)
  | cs => (parseDigits cs).map fun n => (n : Int)

lemma pyInt?_empty : pyInt? "" = none := rfl

/-- Model of Python `str.lower()` for the ASCII range: uppercase letters
are shifted to lowercase, all other characters pass through. -/
def pyLowerChar (c : Char) : Char :=
  if 'A' ≤ c ∧ c ≤ 'Z' then Char.ofNat (c.toNat + 32) else c

/-- `str.lower()` applied to a whole string. -/
def pyLower (s : String) : String :=
  ⟨s.data.map pyLowerChar⟩

/-- `WorkoutScreen.log_workout`: required-field check on exercise,
duration and calories, then `int(...)` on duration and calories, then
append-and-rewrite of `data/workouts.json`.  `today` is the
`datetime.now().strftime("%Y-%m-%d")` stamp. -/
def log_workout (exercise duration calories notes today : String)
    (data : List Workout) : List Workout × SubmitResult :=
  if exercise = "" || duration = "" || calories = "" then
    (data, SubmitResult.err "Please fill all fields.")
  else
    match pyInt? duration, pyInt? calories with
    | some dur, some cal =>
        (data ++ [⟨today, exercise, dur, cal, notes⟩], SubmitResult.ok)
    | _, _ => (data, SubmitResult.err "Duration and Calories must be numbers.")

/-- `WorkoutScreen.delete_selected` after a row was selected: the selected
row's four displayed column values arrive as strings and the file is
rewritten to `[w for w in data if not (w["date"] == date and w["type"] ==
wtype and str(w["duration"]) == duration)]` — the calories column is
unpacked but never compared. -/
def delete_selected (date wtype duration calories : String)
    (data : List Workout) : List Workout :=
  data.filter fun w =>
    !(w.date == date && w.type == wtype && toString w.duration == duration)

/-- `WorkoutScreen.on_row_double_click`: walks the stored records and pops
a notes dialog for every record whose `(date, type, str(duration))` triple
equals the selected row's first three column values; the shown notes in
order. -/
def on_row_double_click (v0 v1 v2 v3 : String) (data : List Workout) :
    List String :=
  data.foldl
    (fun acc w =>
      if (w.date, w.type, toString w.duration) = (v0, v1, v2) then acc ++ [w.notes]
      else acc) []

/-- The record-identity predicate both workout row operations actually
use: date, type and duration-rendered-as-string. -/
def rowMatch (v0 v1 v2 : String) (w : Workout) : Bool :=
  w.date == v0 && w.type == v1 && toString w.duration == v2

lemma rowMatch_iff (v0 v1 v2 : String) (w : Workout) :
    rowMatch v0 v1 v2 w = true
      ↔ (w.date, w.type, toString w.duration) = (v0, v1, v2) := by
  simp [rowMatch, and_assoc]

lemma on_row_double_click_eq (v0 v1 v2 v3 : String) (data : List Workout) :
    on_row_double_click v0 v1 v2 v3 data
      = (data.filter fun w => rowMatch v0 v1 v2 w).map Workout.notes := by
  suffices h : ∀ acc : List String,
      data.foldl
        (fun acc w =>
          if (w.date, w.type, toString w.duration) = (v0, v1, v2) then acc ++ [w.notes]
          else acc) acc
        = acc ++ (data.filter fun w => rowMatch v0 v1 v2 w).map Workout.notes by
    have h0 := h []
    rw [List.nil_append] at h0
    exact h0
  induction data with
  | nil =>
    intro acc
    simp
  | cons w ws ih =>
    intro acc
    rw [List.foldl_cons]
    by_cases hm : (w.date, w.type, toString w.duration) = (v0, v1, v2)
    · rw [if_pos hm, ih, List.filter_cons,
        if_pos (by exact (rowMatch_iff v0 v1 v2 w).mpr hm)]
      simp
    · rw [if_neg hm, ih, List.filter_cons,
        if_neg (by simpa using fun h => hm ((rowMatch_iff v0 v1 v2 w).mp h))]

/-- Counterexample to C5 as stated: with the selected row showing
`("2026-01-01", "Run", "30", "100")`, the stored record with the same
date, type and duration but calories `250` — whose displayed Calories
column `"250"` differs from the row's `"100"` — is removed by delete and
its notes are returned by the double-click lookup all the same: the
calories column is never compared. -/
theorem C5_row_identity_cex :
    delete_selected "2026-01-01" "Run" "30" "100"
        [⟨"2026-01-01", "Run", 30, 100, "a"⟩, ⟨"2026-01-01", "Run", 30, 250, "b"⟩]
      = []
  ∧ on_row_double_click "2026-01-01" "Run" "30" "100"
        [⟨"2026-01-01", "Run", 30, 100, "a"⟩, ⟨"2026-01-01", "Run", 30, 250, "b"⟩]
      = ["a", "b"]
  ∧ toString (250 : Int) ≠ "100" := by
  refine ⟨by decide, by decide, by decide⟩

/-- C5 (amended): workout deletion and the double-click notes lookup
identify a record by its date, type and duration-rendered-as-string only —
the Calories column is not part of the comparison: a stored record is
removed iff those three fields match the selected row, and the lookup
returns precisely the notes of the records matching on those three
fields, in stored order. -/
theorem C5_row_identity (v0 v1 v2 v3 : String) (data : List Workout)
    (w : Workout) (hw : w ∈ data) :
    (w ∉ delete_selected v0 v1 v2 v3 data
      ↔ (w.date = v0 ∧ w.type = v1 ∧ toString w.duration = v2))
  ∧ on_row_double_click v0 v1 v2 v3 data
      = (data.filter fun w => rowMatch v0 v1 v2 w).map Workout.notes := by
  refine ⟨⟨?_, ?_⟩, on_row_double_click_eq v0 v1 v2 v3 data⟩
  · intro hnot
    by_contra hnm
    refine hnot (List.mem_filter.mpr ⟨hw, ?_⟩)
    simp
    tauto
  · intro hm hmem
    have h := (List.mem_filter.mp hmem).2
    simp at h
    tauto

/-- Evaluation of `C5_row_identity`: a record matching the selected row's
date, type and duration is removed from the store by the delete. -/
theorem C5_row_identity_witness :
    (⟨"2026-01-01", "Run", 30, 100, "a"⟩ : Workout)
      ∉ delete_selected "2026-01-01" "Run" "30" "100"
          [⟨"2026-01-01", "Run", 30, 100, "a"⟩, ⟨"2026-01-02", "Swim", 20, 150, "c"⟩] :=
  (C5_row_identity "2026-01-01" "Run" "30" "100"
      [⟨"2026-01-01", "Run", 30, 100, "a"⟩, ⟨"2026-01-02", "Swim", 20, 150, "c"⟩]
      ⟨"2026-01-01", "Run", 30, 100, "a"⟩ (by decide)).1.mpr
    ⟨rfl, rfl, by decide⟩

/-- C9: the delete removes every stored record whose date, type and
duration-as-string equal the selected row's values (all duplicates at
once); every record differing in at least one of the three fields
survives; and the survivors keep their original relative order (the
result is a sublist of the input). -/
theorem C9_delete_all_matching (v0 v1 v2 v3 : String) (data : List Workout) :
    delete_selected v0 v1 v2 v3 data
      = data.filter (fun w => !(rowMatch v0 v1 v2 w))
  ∧ (∀ w ∈ delete_selected v0 v1 v2 v3 data,
      ¬ (w.date = v0 ∧ w.type = v1 ∧ toString w.duration = v2))
  ∧ (∀ w ∈ data, ¬ (w.date = v0 ∧ w.type = v1 ∧ toString w.duration = v2)
      → w ∈ delete_selected v0 v1 v2 v3 data)
  ∧ (delete_selected v0 v1 v2 v3 data).Sublist data := by
  refine ⟨rfl, ?_, ?_, List.filter_sublist data⟩
  · intro w hw
    have h := (List.mem_filter.mp hw).2
    simp at h
    tauto
  · intro w hw hnm
    refine List.mem_filter.mpr ⟨hw, ?_⟩
    simp
    tauto

/-- Evaluation of `C9_delete_all_matching`: deleting row
`("2026-01-01", "Run", "30", "100")` removes both duplicates sharing that
date, type and duration while the swim record survives. -/
theorem C9_delete_all_matching_witness :
    (⟨"2026-01-02", "Swim", 20, 150, "c"⟩ : Workout)
      ∈ delete_selected "2026-01-01" "Run" "30" "100"
          [⟨"2026-01-01", "Run", 30, 100, "a"⟩, ⟨"2026-01-01", "Run", 30, 250, "b"⟩,
            ⟨"2026-01-02", "Swim", 20, 150, "c"⟩] :=
  (C9_delete_all_matching "2026-01-01" "Run" "30" "100"
      [⟨"2026-01-01", "Run", 30, 100, "a"⟩, ⟨"2026-01-01", "Run", 30, 250, "b"⟩,
        ⟨"2026-01-02", "Swim", 20, 150, "c"⟩]).2.2.1
    ⟨"2026-01-02", "Swim", 20, 150, "c"⟩ (by decide) (by decide)

/-- `UserScreen.save_user`: required-field check on all three entries,
`int(age)`, then load-filter-append-rewrite of `data/users.json`; an
existing record whose name matches case-insensitively is filtered out
before the new record is appended. -/
def save_user (name age goal : String) (users : List User) :
    List User × SubmitResult :=
  if name = "" || age = "" || goal = "" then
    (users, SubmitResult.err "Please fill all fields.")
  else
    match pyInt? age with
    | none => (users, SubmitResult.err "Age must be a number.")
    | some a =>
        ((users.filter fun u => pyLower u.name != pyLower name) ++ [⟨name, a, goal⟩],
          SubmitResult.ok)

/-- `UserScreen.delete_user`: requires a name, filters the store
case-insensitively, reports not-found (and writes nothing) when the
filter removed no record, otherwise rewrites the file. -/
def delete_user (name : String) (users : List User) :
    List User × SubmitResult :=
  if name = "" then
    (users, SubmitResult.err "Enter a name to delete.")
  else
    let new_users := users.filter fun u => pyLower u.name != pyLower name
    if new_users.length = users.length then
      (users, SubmitResult.err "No profile found with that name.")
    else
      (new_users, SubmitResult.ok)

/-- `NutritionScreen.log_meal`: the four `int(...)` conversions run inside
one `try` (any failure aborts before anything else), then the meal-type
combobox is checked for emptiness, then append-and-rewrite of
`data/meals.json`. -/
def log_meal (meal calories protein carbs fats today : String)
    (data : List Meal) : List Meal × SubmitResult :=
  match pyInt? calories, pyInt? protein, pyInt? carbs, pyInt? fats with
  | some cal, some p, some c, some f =>
      if meal = "" then
        (data, SubmitResult.err "Select a meal type.")
      else
        (data ++ [⟨today, meal, cal, p, c, f⟩], SubmitResult.ok)
  | _, _, _, _ => (data, SubmitResult.err "Please enter numeric values.")

/-- `GoalScreen.set_goal`: `int(entry)` (a parse failure or a value
`<= 0` raises `ValueError`), then the goal object is rewritten
wholesale. -/
def set_goal (entry : String) (goalData : Option Int) :
    Option Int × SubmitResult :=
  match pyInt? entry with
  | some goal =>
      if goal ≤ 0 then
        (goalData, SubmitResult.err "Please enter a valid positive number.")
      else
        (some goal, SubmitResult.ok)
  | none => (goalData, SubmitResult.err "Please enter a valid positive number.")

/-- C4: saving a valid profile (non-empty name and goal, parseable age)
whose name matches an existing record case-insensitively succeeds,
produces the store with the matching records replaced by the single new
record — so exactly one record with that name remains — and leaves every
record with a non-matching name untouched and in order. -/
theorem C4_save_replaces (name age goal : String) (users : List User) (a : Int)
    (hn : name ≠ "") (hg : goal ≠ "") (ha : pyInt? age = some a)
    (hmatch : ∃ u ∈ users, pyLower u.name = pyLower name) :
    (save_user name age goal users).2 = SubmitResult.ok
  ∧ (save_user name age goal users).1
      = users.filter (fun u => pyLower u.name != pyLower name) ++ [⟨name, a, goal⟩]
  ∧ (save_user name age goal users).1.filter
        (fun u => pyLower u.name == pyLower name)
      = [⟨name, a, goal⟩]
  ∧ (save_user name age goal users).1.filter
        (fun u => pyLower u.name != pyLower name)
      = users.filter (fun u => pyLower u.name != pyLower name) := by
  have hage : age ≠ "" := by
    intro h
    rw [h] at ha
    rw [pyInt?_empty] at ha
    exact Option.noConfusion ha
  have hsave : save_user name age goal users
      = ((users.filter fun u => pyLower u.name != pyLower name) ++ [⟨name, a, goal⟩],
          SubmitResult.ok) := by
    unfold save_user
    rw [if_neg (by simp [hn, hg, hage]), ha]
  refine ⟨by rw [hsave], by rw [hsave], ?_, ?_⟩
  · rw [hsave]
    rw [List.filter_append, List.filter_filter]
    have h1 : (users.filter fun u =>
        (pyLower u.name == pyLower name) && (pyLower u.name != pyLower name)) = [] := by
      apply List.filter_eq_nil_iff.mpr
      intro u hu
      simp
    have h2 : ([⟨name, a, goal⟩] : List User).filter
        (fun u => pyLower u.name == pyLower name) = [⟨name, a, goal⟩] := by
      simp
    rw [h1, h2, List.nil_append]
  · rw [hsave]
    rw [List.filter_append, List.filter_filter]
    have h1 : (users.filter fun u =>
        (pyLower u.name != pyLower name) && (pyLower u.name != pyLower name))
        = users.filter fun u => pyLower u.name != pyLower name := by
      apply List.filter_congr
      intro u hu
      simp
    have h2 : ([⟨name, a, goal⟩] : List User).filter
        (fun u => pyLower u.name != pyLower name) = [] := by
      simp
    rw [h1, h2, List.append_nil]

/-- Evaluation of `C4_save_replaces`: saving `"Bob"` over a store holding
`"bob"` leaves exactly one record with that name — the new one. -/
theorem C4_save_replaces_witness :
    (save_user "Bob" "25" "cut" [⟨"bob", 30, "bulk"⟩]).1.filter
        (fun u => pyLower u.name == pyLower "Bob")
      = [⟨"Bob", 25, "cut"⟩] :=
  (C4_save_replaces "Bob" "25" "cut" [⟨"bob", 30, "bulk"⟩] 25
    (by decide) (by decide) (by decide)
    ⟨⟨"bob", 30, "bulk"⟩, by decide, by decide⟩).2.2.1

/-- C7: every failing submit path writes nothing.  Missing required
fields or unparsable numeric fields make `save_user`, `log_workout`,
`log_meal` and `set_goal` return the store untouched with an error
dialog instead of `ok`; and `delete_user` on a name with no
case-insensitive match reports not-found and returns the store
untouched. -/
theorem C7_error_frame :
    (∀ (name age goal : String) (users : List User),
      (name = "" ∨ age = "" ∨ goal = "" ∨ pyInt? age = none) →
        (save_user name age goal users).1 = users
        ∧ (save_user name age goal users).2 ≠ SubmitResult.ok)
  ∧ (∀ (exercise duration calories notes today : String) (data : List Workout),
      (exercise = "" ∨ duration = "" ∨ calories = ""
        ∨ pyInt? duration = none ∨ pyInt? calories = none) →
        (log_workout exercise duration calories notes today data).1 = data
        ∧ (log_workout exercise duration calories notes today data).2 ≠ SubmitResult.ok)
  ∧ (∀ (meal calories protein carbs fats today : String) (data : List Meal),
      (pyInt? calories = none ∨ pyInt? protein = none ∨ pyInt? carbs = none
        ∨ pyInt? fats = none ∨ meal = "") →
        (log_meal meal calories protein carbs fats today data).1 = data
        ∧ (log_meal meal calories protein carbs fats today data).2 ≠ SubmitResult.ok)
  ∧ (∀ (entry : String) (goalData : Option Int),
      pyInt? entry = none →
        (set_goal entry goalData).1 = goalData
        ∧ (set_goal entry goalData).2 ≠ SubmitResult.ok)
  ∧ (∀ (name : String) (users : List User),
      name ≠ "" → (∀ u ∈ users, pyLower u.name ≠ pyLower name) →
        (delete_user name users).1 = users
        ∧ (delete_user name users).2
            = SubmitResult.err "No profile found with that name.") := by
  refine ⟨?_, ?_, ?_, ?_, ?_⟩
  · intro name age goal users h
    unfold save_user
    rcases hInt : pyInt? age with _ | a
    · split_ifs <;> simp [hInt]
    · have hcond : name = "" ∨ age = "" ∨ goal = "" := by
        rcases h with h | h | h | h
        · exact Or.inl h
        · exact Or.inr (Or.inl h)
        · exact Or.inr (Or.inr h)
        · rw [h] at hInt
          exact Option.noConfusion hInt
      rw [if_pos (by rcases hcond with h | h | h <;> simp [h])]
      exact ⟨rfl, by simp⟩
  · intro exercise duration calories notes today data h
    unfold log_workout
    rcases hd : pyInt? duration with _ | dv
    · split_ifs <;> simp [hd]
    · rcases hc : pyInt? calories with _ | cv
      · split_ifs <;> simp [hd, hc]
      · have hcond : exercise = "" ∨ duration = "" ∨ calories = "" := by
          rcases h with h | h | h | h | h
          · exact Or.inl h
          · exact Or.inr (Or.inl h)
          · exact Or.inr (Or.inr h)
          · rw [h] at hd
            exact Option.noConfusion hd
          · rw [h] at hc
            exact Option.noConfusion hc
        rw [if_pos (by rcases hcond with h | h | h <;> simp [h])]
        exact ⟨rfl, by simp⟩
  · intro meal calories protein carbs fats today data h
    unfold log_meal
    rcases h1 : pyInt? calories with _ | cal
    · simp [h1]
    · rcases h2 : pyInt? protein with _ | p
      · simp [h1, h2]
      · rcases h3 : pyInt? carbs with _ | c
        · simp [h1, h2, h3]
        · rcases h4 : pyInt? fats with _ | f
          · simp [h1, h2, h3, h4]
          · have hm : meal = "" := by
              rcases h with h | h | h | h | h
              · rw [h] at h1
                exact Option.noConfusion h1
              · rw [h] at h2
                exact Option.noConfusion h2
              · rw [h] at h3
                exact Option.noConfusion h3
              · rw [h] at h4
                exact Option.noConfusion h4
              · exact h
            simp [h1, h2, h3, h4, hm]
  · intro entry goalData h
    unfold set_goal
    simp [h]
  · intro name users hn hnom
    have hfil : (users.filter fun u => pyLower u.name != pyLower name) = users :=
      List.filter_eq_self.mpr fun u hu => by simpa using hnom u hu
    simp [delete_user, hn, hfil]

/-- Evaluation of `C7_error_frame`: deleting the absent name `"Zoe"`
leaves the single-user store untouched and reports not-found. -/
theorem C7_error_frame_witness :
    (delete_user "Zoe" [⟨"Bob", 30, "bulk"⟩]).1 = [⟨"Bob", 30, "bulk"⟩]
  ∧ (delete_user "Zoe" [⟨"Bob", 30, "bulk"⟩]).2
      = SubmitResult.err "No profile found with that name." :=
  C7_error_frame.2.2.2.2 "Zoe" [⟨"Bob", 30, "bulk"⟩] (by decide) (by decide)

/-- Counterexample to C8 as stated: the age entry `"-5"` is not a
positive integer, yet `save_user` parses it, reports success and writes
the record with age `-5` — the handler checks only that `int(age)`
parses, never that the result is positive. -/
theorem C8_age_cex :
    pyInt? "-5" = some (-5)
  ∧ (-5 : Int) ≤ 0
  ∧ save_user "Bob" "-5" "lose weight" []
      = ([⟨"Bob", -5, "lose weight"⟩], SubmitResult.ok) := by
  refine ⟨by decide, by decide, by decide⟩

/-- C8 (amended): the save operation admits a record exactly when the age
string parses as an integer — non-integer input is rejected with an error
dialog and no write — but positivity is not enforced: any parsed integer
age, zero and negative values included, is written as-is. -/
theorem C8_age_integer (name age goal : String) (users : List User)
    (hn : name ≠ "") (hg : goal ≠ "") :
    (pyInt? age = none →
      (save_user name age goal users).1 = users
      ∧ (save_user name age goal users).2 ≠ SubmitResult.ok)
  ∧ ∀ a : Int, pyInt? age = some a →
      save_user name age goal users
        = ((users.filter fun u => pyLower u.name != pyLower name) ++ [⟨name, a, goal⟩],
            SubmitResult.ok) := by
  constructor
  · intro hnone
    unfold save_user
    split_ifs with h
    · exact ⟨rfl, by simp⟩
    · simp [hnone]
  · intro a ha
    have hage : age ≠ "" := by
      intro h
      rw [h, pyInt?_empty] at ha
      exact Option.noConfusion ha
    unfold save_user
    rw [if_neg (by simp [hn, hg, hage]), ha]

/-- Evaluation of `C8_age_integer`: the age entry `"0"` — not a positive
integer — is accepted and written with age `0`. -/
theorem C8_age_integer_witness :
    save_user "Ann" "0" "tone" []
      = ([⟨"Ann", 0, "tone"⟩], SubmitResult.ok) :=
  (C8_age_integer "Ann" "0" "tone" [] (by decide) (by decide)).2 0 (by decide)
